/-
Verification of the download-lifecycle coordination core of the aria2 chat-bot
front-end, as a shallow embedding in Lean 4.

The embedding follows the Python source:
  * src/aria2/rpc.py           — task snapshot model (`DownloadTask`, `format_size`,
                                 `progress`, `progress_bar`, `delete_files`)
  * src/telegram/handlers/base.py            — URL validation
  * src/telegram/handlers/download.py        — completion monitor / notified-set
  * src/telegram/handlers/callbacks.py       — live detail refresher, auto-upload hand-off,
                                               surface-key refresher map
  * src/telegram/handlers/cloud_coordinator.py — upload coordinator (coordinated delete)

Python ints are modelled by `Nat` (the fields involved are non-negative byte
counts).  Python float arithmetic is modelled exactly: the int-to-double
rounding of the first true division in `_format_size` is `floatOfNat`
(round-half-even at 53 significant bits); dividing a double by 1024 only
shifts its exponent, so the float after k divisions is exactly
`floatOfNat size / 1024^k`, and `%.1f` performs correctly-rounded
round-half-even decimal conversion of that exact rational, which
`formatOneDecimal` reproduces.  The `OverflowError` that the first division
raises once the rounded quotient exceeds the double range is modelled by
`Option`.

The concurrency model is the single-threaded cooperative scheduler of
asyncio: a code region containing no `await` executes atomically.  Each such
region of the Python source is modelled as one step function on the shared
state, and properties are proved over arbitrary interleavings (arbitrary
lists) of steps.
-/
import Mathlib

/-! ## Task snapshot model (src/aria2/rpc.py) -/

set_option maxRecDepth 100000 in
/-- Rendering of the Python `%.1f` formatting applied to the exact rational
`num / den` (`den` a positive power of 1024): round-half-even to one decimal
digit, then print `intPart.tenths`.  Call sites pass `num` values that are
exact double values (either an integer below 1024 or `floatOfNat` of the
input), whose quotient by the power-of-1024 denominator is exactly the
double being formatted, and CPython's float formatting is correctly rounded
with ties to even, so this reproduces `%.1f` of that double. -/
def formatOneDecimal (num den : Nat) : String :=
  let t := num * 10
  let q := t / den
  let r := t % den
  let n := if 2 * r < den then q
           else if den < 2 * r then q + 1
           else if q % 2 = 0 then q else q + 1
  toString (n / 10) ++ "." ++ toString (n % 10)

/-- Unit suffixes used by `_format_size` in src/aria2/rpc.py, in the order the
loop tries them. -/
def sizeUnits : List String := ["B", "KB", "MB", "GB", "TB"]

/-- Excess of the bit length of `n` over the 53 bits of an IEEE double
significand (0 for `n < 2^53`): the fold computes the largest `k < 1100`
with `2^(53+k) ≤ n`, plus one.  The cap at 1100 excess bits is harmless:
any such `n` lies far above the float overflow bound `2^1034`, where
`format_size` returns `none` for every rounding of that magnitude. -/
def floatBitExcess (n : Nat) : Nat :=
  (List.range 1100).foldl (fun acc k => if 2 ^ (53 + k) ≤ n then k + 1 else acc) 0

/-- The value of the IEEE double nearest to the natural number `n`
(round-half-even at 53 significant bits), as a natural number — Python's
int-to-float conversion performed implicitly by the true division
`size / 1024`, whose correctly-rounded result is `floatOfNat size / 1024`
because binary scaling commutes with rounding. -/
def floatOfNat (n : Nat) : Nat :=
  if n < 2 ^ 53 then n
  else
    let s := floatBitExcess n
    let hi := n / 2 ^ s
    let rem := n % 2 ^ s
    if 2 * rem < 2 ^ s then hi * 2 ^ s
    else if 2 ^ s < 2 * rem then (hi + 1) * 2 ^ s
    else if hi % 2 = 0 then hi * 2 ^ s else (hi + 1) * 2 ^ s

/-- Model of `_format_size` (src/aria2/rpc.py lines 19-25): repeatedly divide
by 1024 while the value is at least 1024 and a smaller unit remains, then
format with one decimal place and the reached unit.  The first comparison is
on the Python int; the first division `size /= 1024` converts to float —
correctly rounding `size / 1024` to `floatOfNat size / 1024` — and raises
`OverflowError` (modelled as `none`) exactly when that rounded quotient
reaches `2^1024`, i.e. when `floatOfNat size ≥ 2^1034`; the later divisions
only shift the double's exponent, so each branch compares and formats
exactly `floatOfNat size / 1024^k`. -/
def format_size (size : Nat) : Option String :=
  if size < 1024 then some (formatOneDecimal size 1 ++ "B")
  else if 2 ^ 1034 ≤ floatOfNat size then none
  else if floatOfNat size < 1024 * 1024 then
    some (formatOneDecimal (floatOfNat size) 1024 ++ "KB")
  else if floatOfNat size < 1024 * 1024 * 1024 then
    some (formatOneDecimal (floatOfNat size) (1024 * 1024) ++ "MB")
  else if floatOfNat size < 1024 * 1024 * 1024 * 1024 then
    some (formatOneDecimal (floatOfNat size) (1024 * 1024 * 1024) ++ "GB")
  else some (formatOneDecimal (floatOfNat size) (1024 * 1024 * 1024 * 1024) ++ "TB")

/-- Model of the `DownloadTask` dataclass (src/aria2/rpc.py lines 28-39).
Byte counts and rates are non-negative integers. -/
structure DownloadTask where
  gid : String
  status : String
  name : String
  total_length : Nat
  completed_length : Nat
  download_speed : Nat
  upload_speed : Nat := 0
  error_message : String := ""
  dir : String := ""
deriving Repr, DecidableEq

/-- Model of the `DownloadTask.progress` property (src/aria2/rpc.py lines
41-46): `0` when `total_length == 0`, otherwise
`completed_length / total_length * 100`. -/
def DownloadTask.progress (t : DownloadTask) : ℚ :=
  if t.total_length = 0 then 0
  else (t.completed_length : ℚ) / (t.total_length : ℚ) * 100

/-- Bar cell count of `DownloadTask.progress_bar` (src/aria2/rpc.py lines
48-52): `pct = int(progress / 10)`; Python `int` truncates toward zero, which
for the non-negative `progress` is the floor. -/
def DownloadTask.progressBarPct (t : DownloadTask) : Nat :=
  (⌊t.progress / 10⌋).toNat

/-- Model of the `DownloadTask.progress_bar` property (src/aria2/rpc.py lines
48-52): `"█" * pct + "░" * (10 - pct)`.  Python string repetition with a
negative count yields the empty string, exactly like truncated `Nat`
subtraction. -/
def DownloadTask.progress_bar (t : DownloadTask) : String :=
  String.mk (List.replicate t.progressBarPct '█' ++
    List.replicate (10 - t.progressBarPct) '░')

/-! ## URL validation (src/telegram/handlers/base.py lines 42-61)

The validator calls `urllib.parse.urlparse` inside `try/except` and inspects
`scheme` and `netloc`; any exception yields `(False, "URL 解析失败")`.  The
CPython 3.11 `urlsplit` is modelled: leading C0-control/space characters are
stripped, tab/CR/LF characters are removed, a scheme is split off when the
text before the first `:` starts with an ASCII letter and consists of scheme
characters, the netloc (authority, the "host component" of the spec) is the
text between a leading `//` and the next `/`, `?` or `#`, and `urlsplit`
raises `ValueError` for an authority with an unbalanced square bracket or
with a balanced bracket pair whose content is not a valid IPv6 address,
IPvFuture literal, or scoped IPv6 address (`_check_bracketed_host`, backed
by `ipaddress`).  The only unmodelled raise is `_checknetloc`'s Unicode
NFKC-normalization guard, which returns immediately for every ASCII
authority; the contract theorem below is therefore stated for inputs whose
authority is ASCII. -/

/-- Model of Python `str.startswith`, by character-list prefix. -/
def strStartsWith (s pre : String) : Bool :=
  pre.data.isPrefixOf s.data

/-- The leading strip of `urlsplit`: `url.lstrip(_WHATWG_C0_CONTROL_OR_SPACE)`
removes leading characters with code points 0x00-0x20. -/
def pyLstripControlSpace (l : List Char) : List Char :=
  l.dropWhile (fun c => decide (c.toNat ≤ 0x20))

/-- Removal of the unsafe bytes `\t`, `\r`, `\n` performed by `urlsplit`. -/
def pyRemoveUnsafe (l : List Char) : List Char :=
  l.filter (fun c => !(c == '\t' || c == '\r' || c == '\n'))

/-- Membership in CPython's `scheme_chars` (ASCII letters, digits, `+`, `-`,
`.`).  `Char.isAlpha` / `Char.isDigit` are ASCII-only, as required. -/
def isSchemeChar (c : Char) : Bool :=
  c.isAlpha || c.isDigit || c == '+' || c == '-' || c == '.'

/-- Scheme extraction of `urlsplit`: if the first `:` occurs at a positive
index, the first character is an ASCII letter, and everything before the `:`
is a scheme character, the scheme is that text lowercased and the rest is the
remainder; otherwise the scheme is empty and the input is untouched. -/
def pySplitScheme (l : List Char) : List Char × List Char :=
  match l.findIdx? (· == ':') with
  | some i =>
    if 0 < i ∧ (match l.head? with
                | some c => c.isAlpha
                | none => false) = true ∧ (l.take i).all isSchemeChar = true
    then ((l.take i).map Char.toLower, l.drop (i + 1))
    else ([], l)
  | none => ([], l)

/-- Netloc extraction of `urlsplit` on the text after the scheme: present
only when it starts with `//`, and extends to the next `/`, `?` or `#`. -/
def pySplitNetloc (l : List Char) : List Char :=
  if l.take 2 = ['/', '/'] then
    (l.drop 2).takeWhile (fun c => !(c == '/' || c == '?' || c == '#'))
  else []

/-- The `scheme` field of `urlparse(url)` (when no error is raised). -/
def pyScheme (url : String) : String :=
  String.mk (pySplitScheme (pyRemoveUnsafe (pyLstripControlSpace url.data))).1

/-- The `netloc` field of `urlparse(url)` (when no error is raised). -/
def pyNetloc (url : String) : String :=
  String.mk (pySplitNetloc (pySplitScheme (pyRemoveUnsafe (pyLstripControlSpace url.data))).2)

/-- Splitting a character list on a separator, keeping empty pieces
(Python `str.split(sep)`). -/
def splitOnCharAux (sep : Char) : List Char → List Char → List (List Char)
  | [], acc => [acc.reverse]
  | c :: rest, acc =>
    if c = sep then acc.reverse :: splitOnCharAux sep rest []
    else splitOnCharAux sep rest (c :: acc)

/-- Python `s.split(sep)` for a single-character separator. -/
def splitOnChar (sep : Char) (l : List Char) : List (List Char) :=
  splitOnCharAux sep l []

/-- ASCII hexadecimal digit (`ipaddress._HEX_DIGITS`). -/
def isHexDigitChar (c : Char) : Bool :=
  c.isDigit || ('a' ≤ c && c ≤ 'f') || ('A' ≤ c && c ≤ 'F')

/-- Decimal value of an ASCII-digit string (call sites guarantee digits). -/
def octetValue (o : List Char) : Nat :=
  o.foldl (fun acc c => acc * 10 + (c.toNat - 48)) 0

/-- Validity of one dotted-quad octet per `IPv4Address._parse_octet`:
non-empty, ASCII digits only, at most 3 characters, no leading zero (except
exactly `0`), value at most 255. -/
def isValidIPv4Octet (o : List Char) : Bool :=
  !o.isEmpty && o.all Char.isDigit && decide (o.length ≤ 3) &&
    !(decide (1 < o.length) && (o.headD ' ' == '0')) &&
    decide (octetValue o ≤ 255)

/-- Validity of an IPv4 address string per
`IPv4Address._ip_int_from_string`: non-empty, exactly four octets split on
`.`, each octet valid. -/
def isValidIPv4 (s : List Char) : Bool :=
  !s.isEmpty &&
    (let octets := splitOnChar '.' s
     decide (octets.length = 4) && octets.all isValidIPv4Octet)

/-- Validity of one IPv6 hextet per `IPv6Address._parse_hextet`: hex digits
only, at most 4 of them, and non-empty (`int('', 16)` raises). -/
def isValidHextet (h : List Char) : Bool :=
  !h.isEmpty && h.all isHexDigitChar && decide (h.length ≤ 4)

/-- Validity of an IPv6 address without scope id, mirroring
`IPv6Address._ip_int_from_string`: at least 3 colon-separated parts; an
IPv4-style last part is validated and replaced by two hextets; at most 9
parts; at most one empty part strictly inside (the `::`), with an empty
first or last part only as part of a leading/trailing `::`; the number of
skipped groups must be at least one; all parsed hextets valid.  Without a
`::` there must be exactly 8 non-empty valid hextets. -/
def isValidIPv6NoScope (s : List Char) : Bool :=
  if s.isEmpty then false
  else
    let parts0 := splitOnChar ':' s
    if parts0.length < 3 then false
    else
      let lastP := parts0.getLastD []
      let hasV4 := lastP.contains '.'
      if hasV4 && !(isValidIPv4 lastP) then false
      else
        let parts := if hasV4 then parts0.dropLast ++ [['0'], ['0']] else parts0
        if 9 < parts.length then false
        else
          let middle := (parts.drop 1).dropLast
          let emptyCount := middle.countP (fun p => p.isEmpty)
          if 2 ≤ emptyCount then false
          else if emptyCount = 1 then
            let skipIdx := 1 + middle.findIdx (fun p => p.isEmpty)
            let headEmpty := (parts.headD []).isEmpty
            let lastEmpty := (parts.getLastD []).isEmpty
            let hi := skipIdx - (if headEmpty then 1 else 0)
            let lo := (parts.length - skipIdx - 1) - (if lastEmpty then 1 else 0)
            if headEmpty && !(hi == 0) then false
            else if lastEmpty && !(lo == 0) then false
            else if 8 ≤ hi + lo then false
            else (parts.take hi).all isValidHextet &&
              (parts.drop (parts.length - lo)).all isValidHextet
          else
            decide (parts.length = 8) && !(parts.headD []).isEmpty &&
              !(parts.getLastD []).isEmpty && parts.all isValidHextet

/-- Validity of an IPv6 address with optional scope id, mirroring
`IPv6Address.__init__` with `_split_scope_id`: the part after the first `%`
(if any) must be non-empty and contain no further `%`. -/
def isValidIPv6WithScope (s : List Char) : Bool :=
  if s.contains '%' then
    let addr := s.takeWhile (fun c => !(c == '%'))
    let scope := (s.dropWhile (fun c => !(c == '%'))).drop 1
    !scope.isEmpty && !(scope.contains '%') && isValidIPv6NoScope addr
  else isValidIPv6NoScope s

/-- The IPvFuture regex of `_check_bracketed_host`,
`v[0-9A-Fa-f]+\. .+` anchored at both ends (the netloc contains no newline,
so `.` matches every remaining character): a lowercase `v`, a non-empty run
of hex digits, a dot, and at least one further character. -/
def isValidIPvFuture (s : List Char) : Bool :=
  match s with
  | 'v' :: rest =>
    let hexRun := rest.takeWhile isHexDigitChar
    let after := rest.drop hexRun.length
    !hexRun.isEmpty &&
      (match after with
       | '.' :: tail => !tail.isEmpty
       | _ => false)
  | _ => false

/-- Model of `_check_bracketed_host` (urllib.parse): a host starting with
`v` must be a valid IPvFuture literal; otherwise `ipaddress.ip_address` is
consulted — a valid IPv4 address raises (`An IPv4 address cannot be in
brackets`), and only a valid (possibly scoped) IPv6 address passes. -/
def checkBracketedHost (h : List Char) : Bool :=
  match h with
  | 'v' :: _ => isValidIPvFuture h
  | _ => if isValidIPv4 h then false else isValidIPv6WithScope h

/-- The bracketed host of a netloc containing `[` and `]`:
`netloc.partition('[')[2].partition(']')[0]` — the text after the first `[`
up to the next `]` (or to the end). -/
def bracketedHostOf (netloc : List Char) : List Char :=
  ((netloc.dropWhile (fun c => !(c == '['))).drop 1).takeWhile (fun c => !(c == ']'))

/-- Whether `urlsplit` raises `ValueError` on this netloc: exactly one of
`[`/`]` present (`Invalid IPv6 URL`), or both present with an invalid
bracketed host.  (`_checknetloc` returns immediately for an empty or ASCII
netloc and is not modelled.) -/
def pyUrlsplitError (netloc : List Char) : Bool :=
  let hasL := netloc.contains '['
  let hasR := netloc.contains ']'
  if hasL && hasR then !(checkBracketedHost (bracketedHostOf netloc))
  else hasL != hasR

/-- Model of `_validate_download_url` (src/telegram/handlers/base.py lines
42-61): returns `(is_valid, error_message)`.  Inputs longer than 2048
characters are rejected; `magnet:`-prefixed inputs are accepted; a
`ValueError` from `urlparse` is caught and reported as a parse failure;
otherwise the scheme must be `http` or `https` (else the error names the
scheme, `无` when empty) and the netloc must be non-empty. -/
def validate_download_url (url : String) : Bool × String :=
  if 2048 < url.length then (false, "URL 过长（最大 2048 字符）")
  else if strStartsWith url "magnet:" then (true, "")
  else if pyUrlsplitError (pyNetloc url).data then (false, "URL 解析失败")
  else if pyScheme url = "http" ∨ pyScheme url = "https" then
    if pyNetloc url = "" then (false, "无效的 URL 格式") else (true, "")
  else
    (false, "不支持的协议: " ++ (if pyScheme url = "" then "无" else pyScheme url) ++
      "，仅支持 HTTP/HTTPS/磁力链接")

/-- A 2049-character `http://` URL, for the length-boundary check. -/
def longHttpUrl : String :=
  String.mk ('h' :: 't' :: 't' :: 'p' :: ':' :: '/' :: '/' :: List.replicate 2042 'a')

/-- A 2048-character magnet URI, the longest accepted input. -/
def longMagnetUri : String :=
  String.mk ('m' :: 'a' :: 'g' :: 'n' :: 'e' :: 't' :: ':' :: List.replicate 2041 'a')

/-! ## File deletion with path-traversal guard (src/aria2/rpc.py lines 183-207)

Filesystem paths are modelled as lists of components of an absolute path.
`Path.resolve()` (without symlinks) lexically collapses `.` and `..`;
`relative_to` succeeds exactly when the base's components are a prefix. -/

/-- Splitting a character list on `/` (the recursion behind
`pathComponents`). -/
def splitSlashAux : List Char → List Char → List (List Char)
  | [], acc => [acc.reverse]
  | c :: rest, acc =>
    if c = '/' then acc.reverse :: splitSlashAux rest []
    else splitSlashAux rest (c :: acc)

/-- Components of a path string, split on `/`, dropping empty components
(leading slash, duplicate slashes). -/
def pathComponents (s : String) : List String :=
  ((splitSlashAux s.data []).map String.mk).filter (fun c => !(c == ""))

/-- Model of `pathlib` `Path(dir) / name`: an absolute `name` replaces the
directory entirely, otherwise the components are concatenated. -/
def pyJoinPath (dir name : String) : List String :=
  if strStartsWith name "/" then pathComponents name
  else pathComponents dir ++ pathComponents name

/-- Model of `Path.resolve()` component normalization: `.` is dropped and
`..` removes the previous component. -/
def resolvePath (l : List String) : List String :=
  l.foldl (fun acc c =>
    if c = "." then acc
    else if c = ".." then acc.dropLast
    else acc ++ [c]) []

/-- Model of `Aria2RpcClient.delete_files` (src/aria2/rpc.py lines 183-207).
`downloadDir` is the configured `DOWNLOAD_DIR`, `fsExists` the filesystem
existence predicate.  Returns the Python boolean result together with the
resolved path actually deleted (`none` when nothing is deleted): empty
directory or name fails fast; a resolved path outside the download directory
is rejected by the `relative_to` check; otherwise an existing path is
deleted. -/
def delete_files (downloadDir : List String) (fsExists : List String → Bool)
    (task : DownloadTask) : Bool × Option (List String) :=
  if task.dir = "" ∨ task.name = "" then (false, none)
  else
    let filePath := resolvePath (pyJoinPath task.dir task.name)
    if (resolvePath downloadDir).isPrefixOf filePath then
      if fsExists filePath then (true, some filePath) else (false, none)
    else (false, none)

/-! ## Upload coordinator (src/telegram/handlers/cloud_coordinator.py)

Configuration flags are read at invocation time.  A `None` backend
configuration behaves exactly like `enabled = False` in every expression of
the coordinator (`config and config.enabled and ...`), so each configuration
is modelled by its three flags. -/

/-- Per-backend configuration flags (`enabled`, `auto_upload`,
`delete_after_upload`). -/
structure BackendCfg where
  enabled : Bool
  autoUpload : Bool
  deleteAfterUpload : Bool
deriving Repr, DecidableEq

/-- The two cloud configurations visible to the coordinator. -/
structure CloudCfg where
  onedrive : BackendCfg
  telegramChannel : BackendCfg
deriving Repr, DecidableEq

/-- The `need_onedrive` expression of `_coordinated_auto_upload` (lines
28-32). -/
def needOnedrive (cfg : CloudCfg) : Bool :=
  cfg.onedrive.enabled && cfg.onedrive.autoUpload

/-- The `need_telegram` expression of `_coordinated_auto_upload` (lines
33-37). -/
def needTelegram (cfg : CloudCfg) : Bool :=
  cfg.telegramChannel.enabled && cfg.telegramChannel.autoUpload

/-- The `need_coordinated_delete` expression of `_coordinated_auto_upload`
(lines 39-42): both backends enabled, auto-uploading and deleting. -/
def needCoordinatedDelete (cfg : CloudCfg) : Bool :=
  (needOnedrive cfg && cfg.onedrive.deleteAfterUpload) &&
    (needTelegram cfg && cfg.telegramChannel.deleteAfterUpload)

/-- The two upload backends. -/
inductive CloudBackend where
  | onedrive
  | telegramChannel
deriving Repr, DecidableEq

/-- Outcome of one backend coroutine under `asyncio.gather(...,
return_exceptions=True)`: returned `True`, returned a non-`True` value, or
raised. -/
inductive UploadOutcome where
  | success
  | failure
  | raised
deriving Repr, DecidableEq

/-- Environment of one `_parallel_upload_with_coordinated_delete` invocation
(lines 60-147): whether the OneDrive client is authenticated, whether a
channel client exists, the local file's size, the channel size limit, and the
outcome each backend coroutine would produce if run. -/
structure CoordEnv where
  onedriveAuthenticated : Bool
  telegramClientPresent : Bool
  fileSize : Nat
  maxSize : Nat
  onedriveOutcome : UploadOutcome
  telegramOutcome : UploadOutcome
deriving Repr, DecidableEq

/-- The `telegram_size_ok` flag (lines 82-91): set to `False` only when a
channel client exists and the file exceeds its limit. -/
def telegramSizeOk (e : CoordEnv) : Bool :=
  !(e.telegramClientPresent && decide (e.maxSize < e.fileSize))

/-- The size-limit warning message sent to the user (lines 85-91). -/
def sizeSkipWarning (e : CoordEnv) : Bool :=
  e.telegramClientPresent && decide (e.maxSize < e.fileSize)

/-- The `tasks` list built in lines 93-117 — the success-required set of the
invocation: OneDrive when authenticated, the channel when a client exists and
the size check passed. -/
def requiredBackends (e : CoordEnv) : List CloudBackend :=
  (if e.onedriveAuthenticated then [CloudBackend.onedrive] else []) ++
    (if e.telegramClientPresent && telegramSizeOk e then [CloudBackend.telegramChannel] else [])

/-- Outcome of a given backend in this invocation. -/
def backendOutcome (e : CoordEnv) : CloudBackend → UploadOutcome
  | CloudBackend.onedrive => e.onedriveOutcome
  | CloudBackend.telegramChannel => e.telegramOutcome

/-- The `all_success` flag computed from the gathered results (lines
126-133): an exception or a non-`True` return of any gathered task clears
it. -/
def allSuccess (e : CoordEnv) : Bool :=
  (requiredBackends e).all (fun b => backendOutcome e b == UploadOutcome.success)

/-- Whether the coordinator invokes `_delete_local_file` (lines 135-142):
only when every gathered task succeeded and at least one task was gathered
(`if not tasks: return` at line 119 and `len(tasks) > 0` at line 137). -/
def coordDeleteInvoked (e : CoordEnv) : Bool :=
  !(requiredBackends e).isEmpty && allSuccess e

/-- Whether the partial-failure message is sent (lines 143-147): the task
list was non-empty (line 119) and not all of its tasks succeeded. -/
def coordFailureMsgSent (e : CoordEnv) : Bool :=
  !(requiredBackends e).isEmpty && !allSuccess e

/-! ## Dedup guards and the automatic hand-off

src/telegram/handlers/download.py `_monitor_download` (lines 162-189) and
src/telegram/handlers/callbacks.py `_auto_refresh_detail` (lines 384-406).
Each modelled step is a Python region containing no `await` between its
membership test and its set insertion, hence atomic under the single-threaded
cooperative scheduler. -/

/-- Task status values of the closed set; any other remote value is carried
as `unknown`. -/
inductive TaskStatus where
  | active
  | waiting
  | paused
  | complete
  | error
  | removed
  | unknown
deriving Repr, DecidableEq

/-- A user-facing notification emitted by the completion monitor. -/
inductive MonitorNotif where
  | completion
  | failure
deriving Repr, DecidableEq

/-- One polling-iteration body of `_monitor_download` (download.py lines
174-186) observing `status` for task `gid`, given the notified-set: the
membership test and insertion (lines 175-176 / 180-181) have no suspension
point between them, so the whole region is one atomic step.  Returns the new
notified-set and the notifications emitted by this step. -/
def monitorObserve (gid : String) (status : TaskStatus) (notified : List String) :
    List String × List MonitorNotif :=
  match status with
  | TaskStatus.complete =>
    if gid ∈ notified then (notified, [])
    else (gid :: notified, [MonitorNotif.completion])
  | TaskStatus.error =>
    if gid ∈ notified then (notified, [])
    else (gid :: notified, [MonitorNotif.failure])
  | _ => (notified, [])

/-- Any interleaving of polling iterations of any number of monitor
instances for the same `gid`, folded over the shared notified-set,
accumulating emitted notifications. -/
def runMonitorSteps (gid : String) (obs : List TaskStatus) (notified : List String) :
    List String × List MonitorNotif :=
  match obs with
  | [] => (notified, [])
  | s :: rest =>
    let (n1, e1) := monitorObserve gid s notified
    let (n2, e2) := runMonitorSteps gid rest n1
    (n2, e1 ++ e2)

/-- The two append-only upload guard sets (base.py lines 81 and 92). -/
structure UploadGuards where
  autoUploaded : List String
  channelUploaded : List String
deriving Repr, DecidableEq

/-- The independent branch of `_coordinated_auto_upload`
(cloud_coordinator.py lines 50-58): each backend whose guard set does not
yet contain `gid` is marked and its upload coroutine is scheduled.  Returns
the new guards and the scheduled backends. -/
def independentScheduled (cfg : CloudCfg) (gid : String) (g : UploadGuards) :
    UploadGuards × List CloudBackend :=
  let (g1, s1) :=
    if needOnedrive cfg && !(gid ∈ g.autoUploaded : Bool) then
      ({ g with autoUploaded := gid :: g.autoUploaded }, [CloudBackend.onedrive])
    else (g, [])
  let (g2, s2) :=
    if needTelegram cfg && !(gid ∈ g1.channelUploaded : Bool) then
      ({ g1 with channelUploaded := gid :: g1.channelUploaded }, [CloudBackend.telegramChannel])
    else (g1, [])
  (g2, s1 ++ s2)

/-- What one invocation of `_coordinated_auto_upload` schedules. -/
inductive CoordAction where
  | parallelCoordinated
  | independent (backends : List CloudBackend)
deriving Repr, DecidableEq

/-- Model of `_coordinated_auto_upload` (cloud_coordinator.py lines 16-58),
assuming the local file exists: either the coordinated parallel path, or the
independent per-backend branch. -/
def coordinatedAutoUpload (cfg : CloudCfg) (gid : String) (g : UploadGuards) :
    UploadGuards × CoordAction :=
  if needCoordinatedDelete cfg then (g, CoordAction.parallelCoordinated)
  else
    let (g2, scheduled) := independentScheduled cfg gid g
    (g2, CoordAction.independent scheduled)

/-- The terminal-state hand-off region of `_auto_refresh_detail`
(callbacks.py lines 386-405), executed when a refresher observes status
`complete`: one atomic region (no `await` from the membership test at line
386 to the `create_task` at line 401) that tests the auto-uploaded guard,
inserts `gid` into both guard sets, and schedules the coordinator coroutine.
Returns the new guards and whether a coordinator invocation was scheduled. -/
def refresherHandoff (cfg : CloudCfg) (gid : String) (g : UploadGuards) :
    UploadGuards × Bool :=
  if gid ∈ g.autoUploaded then (g, false)
  else if needOnedrive cfg || needTelegram cfg then
    ({ autoUploaded := gid :: g.autoUploaded,
       channelUploaded := gid :: g.channelUploaded }, true)
  else (g, false)

/-- The hand-off immediately followed by the coordinator invocation it
scheduled (the full automatic path from a refresher observing `complete` to
the coordinator's scheduling decision).  Returns the final guards and the
backends whose upload coroutines were scheduled by the independent branch
(`none` when the parallel coordinated path ran instead, `some []` when the
independent branch ran and scheduled nothing). -/
def autoHandoffThenCoordinator (cfg : CloudCfg) (gid : String) (g : UploadGuards) :
    UploadGuards × Option (List CloudBackend) :=
  let (g1, fired) := refresherHandoff cfg gid g
  if fired then
    match coordinatedAutoUpload cfg gid g1 with
    | (g2, CoordAction.parallelCoordinated) => (g2, none)
    | (g2, CoordAction.independent scheduled) => (g2, some scheduled)
  else (g1, some [])

/-- An observer of a task's `complete` transition: a live detail refresher
(which runs the hand-off region) or a completion monitor (which only
notifies — download.py lines 174-178 contain no hand-off; the comment at
lines 202-203 states the auto upload is handled by the refresher path). -/
inductive CompleteObserver where
  | refresher
  | monitor
deriving Repr, DecidableEq

/-- One observer's atomic reaction to observing `complete`, as far as the
upload guards are concerned.  Returns the new guards and how many coordinator
invocations the step scheduled. -/
def observerHandoffStep (cfg : CloudCfg) (gid : String) (g : UploadGuards) :
    CompleteObserver → UploadGuards × Nat
  | CompleteObserver.refresher =>
    let (g1, fired) := refresherHandoff cfg gid g
    (g1, if fired then 1 else 0)
  | CompleteObserver.monitor => (g, 0)

/-- Total number of coordinator invocations scheduled by an arbitrary
interleaving of observers of the same task's completion. -/
def handoffCount (cfg : CloudCfg) (gid : String) (g : UploadGuards) :
    List CompleteObserver → Nat
  | [] => 0
  | o :: rest =>
    let (g1, c) := observerHandoffStep cfg gid g o
    c + handoffCount cfg gid g1 rest

/-! ## Live detail refresher supersession (src/telegram/handlers/callbacks.py)

The surface-key map `_auto_refresh_tasks` (base.py line 80), the
cancel-on-start in `_stop_auto_refresh` / `_handle_detail_callback` (lines
301-324), and the unconditional `pop(key, None)` in the `finally` of
`_auto_refresh_detail` (lines 409-410).  Refresher coroutines are identified
by numeric ids.  `_handle_detail_callback` contains no `await` between the
stop and the map store, so it is one atomic region; the cancelled loop's
`finally` runs later, when the event loop resumes the cancelled coroutine. -/

/-- State of the refresher bookkeeping: the surface-key map, which coroutine
ids were created, which were cancelled, and which have run their `finally`,
together with each coroutine's surface key. -/
structure RefresherMapState where
  map : List (String × Nat)
  started : List Nat
  cancelled : List Nat
  finished : List Nat
  owner : List (Nat × String)
deriving Repr, DecidableEq

/-- Dictionary lookup in the surface-key map. -/
def mapLookup (m : List (String × Nat)) (k : String) : Option Nat :=
  match m.find? (fun p => p.1 == k) with
  | some p => some p.2
  | none => none

/-- Dictionary removal (`pop`) in the surface-key map. -/
def mapErase (m : List (String × Nat)) (k : String) : List (String × Nat) :=
  m.filter (fun p => !(p.1 == k))

/-- Model of `_stop_auto_refresh` (callbacks.py lines 301-307): if the key is
mapped, pop the mapped coroutine and cancel it; the method does not await the
cancelled coroutine's cleanup. -/
def stopAutoRefresh (k : String) (s : RefresherMapState) : RefresherMapState :=
  match mapLookup s.map k with
  | some t => { s with map := mapErase s.map k, cancelled := t :: s.cancelled }
  | none => s

/-- Model of `_handle_detail_callback` (callbacks.py lines 309-324) starting
coroutine `t` for surface key `k`: stop any mapped refresher for `k`, create
the new coroutine, store it in the map.  No `await` separates these
statements. -/
def handleDetailCallback (k : String) (t : Nat) (s : RefresherMapState) : RefresherMapState :=
  let s1 := stopAutoRefresh k s
  { s1 with
    map := (k, t) :: mapErase s1.map k
    started := t :: s1.started
    owner := (t, k) :: s1.owner }

/-- Model of the `finally` block of `_auto_refresh_detail` (callbacks.py
lines 409-410) run by coroutine `t` for key `k` once `t` is cancelled or its
loop ends: `self._auto_refresh_tasks.pop(key, None)` removes whatever entry
currently sits under `k` — possibly a successor's entry. -/
def refresherFinallyCleanup (t : Nat) (k : String) (s : RefresherMapState) : RefresherMapState :=
  { s with map := mapErase s.map k, finished := t :: s.finished }

/-- A refresher coroutine still running (created, not cancelled, loop not
exited): such a loop keeps polling and issuing render calls. -/
def refresherRunning (s : RefresherMapState) (t : Nat) : Bool :=
  t ∈ s.started && !(t ∈ s.cancelled : Bool) && !(t ∈ s.finished : Bool)

/-- The running refreshers whose surface key is `k`. -/
def runningForKey (s : RefresherMapState) (k : String) : List Nat :=
  s.started.filter (fun t => refresherRunning s t && ((t, k) ∈ s.owner : Bool))

/-- The empty refresher bookkeeping (process start). -/
def refresherInit : RefresherMapState :=
  { map := [], started := [], cancelled := [], finished := [], owner := [] }

/-- The four-event interleaving exhibiting the supersession violation: start
refresher 1 for key `1:7`; start refresher 2 for the same key (cancelling 1);
coroutine 1 resumes with `CancelledError` and its `finally` pops the key
(removing refresher 2's entry); start refresher 3 for the same key. -/
def supersessionTrace : RefresherMapState :=
  handleDetailCallback "1:7" 3
    (refresherFinallyCleanup 1 "1:7"
      (handleDetailCallback "1:7" 2
        (handleDetailCallback "1:7" 1 refresherInit)))

/-! ## Concrete fixtures used by witnesses and counterexamples -/

/-- A snapshot with zero total length (metadata not yet known). -/
def taskZeroTotal : DownloadTask :=
  { gid := "g0", status := "waiting", name := "f", total_length := 0,
    completed_length := 7, download_speed := 0 }

/-- A snapshot one quarter done. -/
def taskQuarter : DownloadTask :=
  { gid := "g1", status := "active", name := "f", total_length := 4,
    completed_length := 1, download_speed := 0 }

/-- A half-done snapshot. -/
def taskHalf : DownloadTask :=
  { gid := "g2", status := "active", name := "f", total_length := 100,
    completed_length := 50, download_speed := 0 }

/-- A snapshot the remote reported with completed bytes exceeding the total. -/
def taskOverfull : DownloadTask :=
  { gid := "g3", status := "active", name := "f", total_length := 100,
    completed_length := 150, download_speed := 0 }

/-- A completed task whose file sits inside the download directory. -/
def taskInside : DownloadTask :=
  { gid := "g4", status := "complete", name := "file.bin", total_length := 1,
    completed_length := 1, download_speed := 0, dir := "/downloads" }

/-- A completed task whose display name climbs outside the download
directory. -/
def taskTraversal : DownloadTask :=
  { gid := "g5", status := "complete", name := "../../etc/passwd", total_length := 1,
    completed_length := 1, download_speed := 0, dir := "/downloads" }

/-- A task with an empty directory field. -/
def taskNoDir : DownloadTask :=
  { gid := "g6", status := "complete", name := "file.bin", total_length := 1,
    completed_length := 1, download_speed := 0, dir := "" }

/-- The configured download directory used in the fixtures. -/
def fixtureDownloadDir : List String := ["downloads"]

/-- The fixture filesystem: exactly one file exists. -/
def fixtureFs : List String → Bool :=
  fun p => p == ["downloads", "file.bin"]

/-- Configuration whose coordinated-delete condition fails: OneDrive enabled
with auto-upload but without delete-after-upload, channel disabled. -/
def cfgOnedriveOnly : CloudCfg :=
  { onedrive := { enabled := true, autoUpload := true, deleteAfterUpload := false },
    telegramChannel := { enabled := false, autoUpload := false, deleteAfterUpload := false } }

/-- Coordinator environment whose success-required set is empty: OneDrive
not authenticated, channel client present but the file exceeds the size
limit. -/
def envEmptyRequired : CoordEnv :=
  { onedriveAuthenticated := false, telegramClientPresent := true,
    fileSize := 100, maxSize := 50,
    onedriveOutcome := UploadOutcome.success, telegramOutcome := UploadOutcome.success }

/-- Coordinator environment with both backends required, the channel upload
failing. -/
def envBothRequired : CoordEnv :=
  { onedriveAuthenticated := true, telegramClientPresent := true,
    fileSize := 10, maxSize := 50,
    onedriveOutcome := UploadOutcome.success, telegramOutcome := UploadOutcome.failure }

/-! ## Helper lemmas -/

/-- Nat-level characterization of the bar cell count: floor of the rational
chain equals nested natural division. -/
theorem progressBarPct_eq (t : DownloadTask) :
    t.progressBarPct =
      if t.total_length = 0 then 0
      else t.completed_length * 100 / t.total_length / 10 := by
  by_cases h : t.total_length = 0
  · simp [DownloadTask.progressBarPct, DownloadTask.progress, h]
  · simp only [DownloadTask.progressBarPct, DownloadTask.progress, if_neg h]
    rw [Int.floor_toNat]
    have e : (t.completed_length : ℚ) / (t.total_length : ℚ) * 100 / 10
        = ((t.completed_length * 100 : ℕ) : ℚ) / ((t.total_length : ℕ) : ℚ) / ((10 : ℕ) : ℚ) := by
      push_cast
      ring
    rw [e, Nat.floor_div_nat, Nat.floor_div_eq_div]

/-- The rendered bar's character count is the filled cells plus the
(truncated) remaining cells. -/
theorem progress_bar_length_eq (t : DownloadTask) :
    t.progress_bar.length = t.progressBarPct + (10 - t.progressBarPct) := by
  show (List.replicate t.progressBarPct '█' ++
    List.replicate (10 - t.progressBarPct) '░').length = _
  rw [List.length_append, List.length_replicate, List.length_replicate]

/-! ## Claim theorems -/

/-- C8: for every task snapshot the derived progress is total — it equals 0
when `total_length = 0` and satisfies `progress * total = completed * 100`
(the cross-multiplied form of `completed / total * 100`) otherwise; no
division error can occur since the zero divisor is tested first. -/
theorem progress_zero_total_and_ratio (t : DownloadTask) :
    (t.total_length = 0 → t.progress = 0) ∧
    (t.total_length ≠ 0 → t.progress * t.total_length = t.completed_length * 100) := by
  constructor
  · intro h
    simp [DownloadTask.progress, h]
  · intro h
    have h0 : (t.total_length : ℚ) ≠ 0 := Nat.cast_ne_zero.mpr h
    simp only [DownloadTask.progress, if_neg h]
    field_simp

/-- Witness: the progress theorem applied to a zero-total snapshot and to a
quarter-done snapshot. -/
theorem progress_zero_total_and_ratio_witness :
    taskZeroTotal.progress = 0 ∧ taskQuarter.progress * 4 = 100 := by
  constructor
  · exact (progress_zero_total_and_ratio taskZeroTotal).1 rfl
  · have h := (progress_zero_total_and_ratio taskQuarter).2 (by decide)
    simpa [taskQuarter] using h

/-- C7 counterexample: the code does not clamp, so a snapshot whose
completed bytes exceed its total renders a 15-cell bar, not a 10-cell one. -/
theorem progress_bar_width_counterexample :
    taskOverfull.total_length < taskOverfull.completed_length ∧
    taskOverfull.progress_bar.length = 15 := by
  refine ⟨by decide, ?_⟩
  have hp : taskOverfull.progressBarPct = 15 := by
    rw [progressBarPct_eq]
    decide
  rw [progress_bar_length_eq, hp]

/-- C7 (amended): whenever `completed_length ≤ total_length` (in particular
whenever `total_length = 0`), the rendered progress bar has exactly 10
cells; the code does not clamp, so over-complete snapshots render wider
bars. -/
theorem progress_bar_fixed_width (t : DownloadTask)
    (h : t.completed_length ≤ t.total_length) :
    t.progress_bar.length = 10 := by
  have hp : t.progressBarPct ≤ 10 := by
    rw [progressBarPct_eq]
    by_cases h0 : t.total_length = 0
    · simp [h0]
    · simp only [if_neg h0]
      have h2 : t.completed_length * 100 / t.total_length ≤
          t.total_length * 100 / t.total_length :=
        Nat.div_le_div_right (Nat.mul_le_mul_right _ h)
      have h3 : t.total_length * 100 / t.total_length = 100 := by
        rw [Nat.mul_comm]
        exact Nat.mul_div_cancel _ (Nat.pos_of_ne_zero h0)
      rw [h3] at h2
      calc t.completed_length * 100 / t.total_length / 10
          ≤ 100 / 10 := Nat.div_le_div_right h2
        _ = 10 := rfl
  rw [progress_bar_length_eq]
  omega

/-- Witness: the fixed-width theorem applied to a half-done snapshot. -/
theorem progress_bar_fixed_width_witness :
    taskHalf.completed_length ≤ taskHalf.total_length ∧ taskHalf.progress_bar.length = 10 :=
  ⟨by decide, progress_bar_fixed_width taskHalf (by decide)⟩

/-- A natural below `2^53` is its own nearest double. -/
theorem floatOfNat_small (n : Nat) (h : n < 2 ^ 53) : floatOfNat n = n := by
  unfold floatOfNat
  rw [if_pos h]

set_option maxRecDepth 100000 in
/-- C9 counterexample: at `2^1034` the first float division overflows and
the program raises `OverflowError` instead of producing a formatted string,
refuting the claim for that input; at the double-rounding boundary input
`9007254230322381` the program and the model agree on `"8192.0TB"` (the
exact rational would round to `"8192.1TB"`, but the int-to-double conversion
rounds the value down first). -/
theorem format_size_counterexample :
    format_size (2 ^ 1034) = none ∧
    floatOfNat 9007254230322381 = 9007254230322380 ∧
    format_size 9007254230322381 = some "8192.0TB" := by
  refine ⟨by decide, by decide, by decide⟩

set_option maxRecDepth 100000 in
/-- C9 (amended): the formatter produces the specified boundary values; for
every input whose rounded double value stays below the overflow bound
`2^1034`, the result is the one-decimal round-half-even rendering of
`floatOfNat size / 1024^k` with the matching suffix from `B/KB/MB/GB/TB`;
at and beyond the bound the first float division overflows and the function
raises instead of returning a string. -/
theorem format_size_spec :
    format_size 0 = some "0.0B" ∧ format_size 1024 = some "1.0KB" ∧
    format_size 1536 = some "1.5KB" ∧ format_size 1073741824 = some "1.0GB" ∧
    (∀ n : Nat, floatOfNat n < 2 ^ 1034 → ∃ k, k ≤ 4 ∧
      format_size n = some (formatOneDecimal (floatOfNat n) (1024 ^ k) ++ sizeUnits.getD k "")) ∧
    (∀ n : Nat, 2 ^ 1034 ≤ floatOfNat n → format_size n = none) := by
  refine ⟨by decide, by decide, by decide, by decide, ?_, ?_⟩
  · intro n hv
    unfold format_size
    by_cases h1 : n < 1024
    · rw [if_pos h1]
      refine ⟨0, by norm_num, ?_⟩
      rw [floatOfNat_small n (lt_trans h1 (by norm_num))]
      norm_num [sizeUnits]
    rw [if_neg h1, if_neg (Nat.not_le.mpr hv)]
    by_cases h2 : floatOfNat n < 1024 * 1024
    · rw [if_pos h2]
      exact ⟨1, by norm_num, by norm_num [sizeUnits]⟩
    rw [if_neg h2]
    by_cases h3 : floatOfNat n < 1024 * 1024 * 1024
    · rw [if_pos h3]
      exact ⟨2, by norm_num, by norm_num [sizeUnits]⟩
    rw [if_neg h3]
    by_cases h4 : floatOfNat n < 1024 * 1024 * 1024 * 1024
    · rw [if_pos h4]
      exact ⟨3, by norm_num, by norm_num [sizeUnits]⟩
    rw [if_neg h4]
    exact ⟨4, by norm_num, by norm_num [sizeUnits]⟩
  · intro n h
    unfold format_size
    have h1 : ¬ n < 1024 := by
      intro hlt
      rw [floatOfNat_small n (lt_trans hlt (by norm_num))] at h
      exact absurd (lt_of_le_of_lt h hlt) (by norm_num)
    rw [if_neg h1, if_pos h]

set_option maxRecDepth 100000 in
/-- Witness: the amended formatter theorem applied at 1536 (below the
overflow bound) and at `2^1035` (beyond it). -/
theorem format_size_spec_witness :
    (∃ k, k ≤ 4 ∧ format_size 1536 =
      some (formatOneDecimal (floatOfNat 1536) (1024 ^ k) ++ sizeUnits.getD k "")) ∧
    format_size (2 ^ 1035) = none :=
  ⟨format_size_spec.2.2.2.2.1 1536 (by decide),
   format_size_spec.2.2.2.2.2 (2 ^ 1035) (by decide)⟩

/-- The boundary URL has 2049 characters. -/
theorem longHttpUrl_length : longHttpUrl.length = 2049 := by
  rw [longHttpUrl, String.length_mk]
  simp only [List.length_cons, List.length_replicate]

/-- The boundary magnet URI has 2048 characters. -/
theorem longMagnetUri_length : longMagnetUri.length = 2048 := by
  rw [longMagnetUri, String.length_mk]
  simp only [List.length_cons, List.length_replicate]

/-- The boundary magnet URI carries the magnet prefix. -/
theorem longMagnetUri_starts : strStartsWith longMagnetUri "magnet:" = true := rfl

/-- C6 counterexample: the input `http://[a` has an `http` scheme and a
non-empty authority, yet the validator rejects it — `urlsplit` raises
`Invalid IPv6 URL` for the unbalanced bracket, and the `except` branch
reports a parse failure. -/
theorem validate_download_url_counterexample :
    pyScheme "http://[a" = "http" ∧ pyNetloc "http://[a" ≠ "" ∧
    ("http://[a" : String).length ≤ 2048 ∧
    validate_download_url "http://[a" = (false, "URL 解析失败") := by
  refine ⟨by decide, by decide, by decide, by decide⟩

/-- C6 (amended): for every input whose parsed authority is ASCII (URL
parsing of a non-ASCII authority may additionally be rejected by the
Unicode-normalization guard), the validator accepts exactly the inputs of
length at most 2048 that either carry the `magnet:` prefix or parse without
error to an `http`/`https` scheme with a non-empty authority; parsing fails
only on bracket-related authority errors, so a bracket-free authority never
raises; every rejection carries a non-empty human-readable reason; and the
boundary cases behave as specified — a 2049-character `http://` URL and
`http://` with empty host are rejected, a 2048-character magnet URI, a
leading-space URL and a bracketed IPv6 host are accepted, and the `ftp`
rejection names the scheme. -/
theorem validate_download_url_contract :
    (∀ url : String,
      (pyNetloc url).data.all (fun c => decide (c.toNat < 128)) = true →
        ((validate_download_url url).1 = true ↔
          (url.length ≤ 2048 ∧ (strStartsWith url "magnet:" = true ∨
            (pyUrlsplitError (pyNetloc url).data = false ∧
              (pyScheme url = "http" ∨ pyScheme url = "https") ∧ pyNetloc url ≠ ""))))) ∧
    (∀ url : String,
      '[' ∉ (pyNetloc url).data → ']' ∉ (pyNetloc url).data →
        pyUrlsplitError (pyNetloc url).data = false) ∧
    (∀ url : String,
      ((validate_download_url url).2 = "" ↔ (validate_download_url url).1 = true)) ∧
    longHttpUrl.length = 2049 ∧
    validate_download_url longHttpUrl = (false, "URL 过长（最大 2048 字符）") ∧
    longMagnetUri.length = 2048 ∧
    validate_download_url longMagnetUri = (true, "") ∧
    validate_download_url " http://host/x" = (true, "") ∧
    validate_download_url "ftp://host/path" =
      (false, "不支持的协议: ftp，仅支持 HTTP/HTTPS/磁力链接") ∧
    validate_download_url "http://" = (false, "无效的 URL 格式") ∧
    validate_download_url "http://[::1]/x" = (true, "") := by
  have hHttpLong : validate_download_url longHttpUrl = (false, "URL 过长（最大 2048 字符）") := by
    unfold validate_download_url
    rw [if_pos (show 2048 < longHttpUrl.length by rw [longHttpUrl_length]; norm_num)]
  have hMagnetLong : validate_download_url longMagnetUri = (true, "") := by
    unfold validate_download_url
    rw [if_neg (show ¬2048 < longMagnetUri.length by rw [longMagnetUri_length]; norm_num),
      if_pos longMagnetUri_starts]
  refine ⟨?_, ?_, ?_, longHttpUrl_length, hHttpLong, longMagnetUri_length, hMagnetLong,
    by decide, by decide, by decide, by decide⟩
  · intro url _
    unfold validate_download_url
    by_cases hlen : 2048 < url.length
    · rw [if_pos hlen]
      simp only [Prod.fst]
      constructor
      · intro h
        exact absurd h (by simp)
      · intro h
        exact absurd h.1 (by omega)
    · rw [if_neg hlen]
      by_cases hm : strStartsWith url "magnet:" = true
      · rw [if_pos hm]
        simp [hm]
        omega
      · rw [if_neg hm]
        by_cases he : pyUrlsplitError (pyNetloc url).data = true
        · rw [if_pos he]
          simp [hm, he]
        · rw [if_neg he]
          rw [Bool.not_eq_true] at he
          by_cases hs : pyScheme url = "http" ∨ pyScheme url = "https"
          · rw [if_pos hs]
            by_cases hn : pyNetloc url = ""
            · rw [if_pos hn]
              simp [hm, hn]
            · rw [if_neg hn]
              simp [hm, hs, hn, he]
              omega
          · rw [if_neg hs]
            simp [hm, hs]
  · intro url h1 h2
    simp [pyUrlsplitError, h1, h2]
  · intro url
    unfold validate_download_url
    by_cases hlen : 2048 < url.length
    · rw [if_pos hlen]
      decide
    · rw [if_neg hlen]
      by_cases hm : strStartsWith url "magnet:" = true
      · rw [if_pos hm]
        decide
      · rw [if_neg hm]
        by_cases he : pyUrlsplitError (pyNetloc url).data = true
        · rw [if_pos he]
          decide
        · rw [if_neg he]
          by_cases hs : pyScheme url = "http" ∨ pyScheme url = "https"
          · rw [if_pos hs]
            by_cases hn : pyNetloc url = ""
            · rw [if_pos hn]
              decide
            · rw [if_neg hn]
              decide
          · rw [if_neg hs]
            by_cases h0 : pyScheme url = ""
            · rw [if_pos h0]
              decide
            · rw [if_neg h0]
              constructor
              · intro h
                have hl := congrArg String.length h
                rw [String.length_append, String.length_append] at hl
                have hempty : ("" : String).length = 0 := rfl
                have h8 : ("不支持的协议: " : String).length = 8 := by decide
                omega
              · intro h
                exact absurd h (by simp)

/-- Witness: the contract theorem applied to a plain `https` URL with an
ASCII bracket-free authority. -/
theorem validate_download_url_contract_witness :
    ((validate_download_url "https://host/path").1 = true ↔
      (("https://host/path" : String).length ≤ 2048 ∧
        (strStartsWith "https://host/path" "magnet:" = true ∨
          (pyUrlsplitError (pyNetloc "https://host/path").data = false ∧
            (pyScheme "https://host/path" = "http" ∨
              pyScheme "https://host/path" = "https") ∧
            pyNetloc "https://host/path" ≠ "")))) ∧
    pyUrlsplitError (pyNetloc "https://host/path").data = false :=
  ⟨validate_download_url_contract.1 "https://host/path" (by decide),
   validate_download_url_contract.2.1 "https://host/path" (by decide) (by decide)⟩

/-- A monitor step for an already-notified task id changes nothing and emits
nothing. -/
theorem monitorObserve_of_mem (gid : String) (s : TaskStatus) (notified : List String)
    (h : gid ∈ notified) : monitorObserve gid s notified = (notified, []) := by
  cases s <;> simp [monitorObserve, h]

/-- Once the task id is in the notified-set, no interleaving of further
monitor steps emits anything. -/
theorem runMonitorSteps_of_mem (gid : String) (obs : List TaskStatus) :
    ∀ notified, gid ∈ notified → runMonitorSteps gid obs notified = (notified, []) := by
  induction obs with
  | nil => intro n _; rfl
  | cons s rest ih =>
    intro n h
    simp [runMonitorSteps, monitorObserve_of_mem gid s n h, ih n h]

/-- Any interleaving of monitor steps for one task id emits at most one
notification in total. -/
theorem runMonitorSteps_length_le_one (gid : String) (obs : List TaskStatus) :
    ∀ notified, (runMonitorSteps gid obs notified).2.length ≤ 1 := by
  induction obs with
  | nil => intro n; simp [runMonitorSteps]
  | cons s rest ih =>
    intro n
    by_cases h : gid ∈ n
    · rw [runMonitorSteps_of_mem gid (s :: rest) n h]
      simp
    · cases s with
      | complete =>
        simp only [runMonitorSteps, monitorObserve, if_neg h]
        rw [runMonitorSteps_of_mem gid rest (gid :: n) (List.mem_cons_self gid n)]
        simp
      | error =>
        simp only [runMonitorSteps, monitorObserve, if_neg h]
        rw [runMonitorSteps_of_mem gid rest (gid :: n) (List.mem_cons_self gid n)]
        simp
      | active => simpa [runMonitorSteps, monitorObserve] using ih n
      | waiting => simpa [runMonitorSteps, monitorObserve] using ih n
      | paused => simpa [runMonitorSteps, monitorObserve] using ih n
      | removed => simpa [runMonitorSteps, monitorObserve] using ih n
      | unknown => simpa [runMonitorSteps, monitorObserve] using ih n

/-- C2: for any task id, any starting notified-set and any interleaving of
polling iterations of any number of concurrent completion-monitor instances
for that id, at most one completion notification and at most one failure
notification are emitted — the notified-set membership test and insertion
form one atomic (suspension-free) region executed before the notification is
sent. -/
theorem monitor_at_most_once_notification (gid : String) (obs : List TaskStatus)
    (notified : List String) :
    (runMonitorSteps gid obs notified).2.count MonitorNotif.completion ≤ 1 ∧
    (runMonitorSteps gid obs notified).2.count MonitorNotif.failure ≤ 1 :=
  ⟨Nat.le_trans (List.count_le_length _ _) (runMonitorSteps_length_le_one gid obs notified),
   Nat.le_trans (List.count_le_length _ _) (runMonitorSteps_length_le_one gid obs notified)⟩

/-- The hand-off region does not fire for an already-guarded task id. -/
theorem refresherHandoff_of_mem (cfg : CloudCfg) (gid : String) (g : UploadGuards)
    (h : gid ∈ g.autoUploaded) : refresherHandoff cfg gid g = (g, false) := by
  simp [refresherHandoff, h]

/-- Once the task id is in the auto-uploaded guard set, no interleaving of
further observers schedules a coordinator invocation. -/
theorem handoffCount_zero_of_mem (cfg : CloudCfg) (gid : String) (obs : List CompleteObserver) :
    ∀ g, gid ∈ g.autoUploaded → handoffCount cfg gid g obs = 0 := by
  induction obs with
  | nil => intro g _; rfl
  | cons o rest ih =>
    intro g h
    cases o with
    | refresher =>
      simp [handoffCount, observerHandoffStep, refresherHandoff_of_mem cfg gid g h, ih g h]
    | monitor =>
      simp [handoffCount, observerHandoffStep, ih g h]

/-- C3: starting from a state whose auto-uploaded guard set does not contain
the task id, any interleaving of refresher and monitor observers of the
task's completion schedules the upload coordinator at most once, and
whenever the hand-off region fires it has already inserted the id into both
guard sets (the insertion precedes the scheduling, with no suspension point
between the membership test and the insertion). -/
theorem auto_handoff_at_most_once (cfg : CloudCfg) (gid : String)
    (obs : List CompleteObserver) (g : UploadGuards) (hg : gid ∉ g.autoUploaded) :
    handoffCount cfg gid g obs ≤ 1 ∧
    (∀ g1 : UploadGuards, (refresherHandoff cfg gid g1).2 = true →
      gid ∈ (refresherHandoff cfg gid g1).1.autoUploaded ∧
      gid ∈ (refresherHandoff cfg gid g1).1.channelUploaded) := by
  constructor
  · induction obs generalizing g with
    | nil => simp [handoffCount]
    | cons o rest ih =>
      cases o with
      | refresher =>
        by_cases hn : (needOnedrive cfg || needTelegram cfg) = true
        · have hr : refresherHandoff cfg gid g =
              ({ autoUploaded := gid :: g.autoUploaded,
                 channelUploaded := gid :: g.channelUploaded }, true) := by
            simp [refresherHandoff, hg, hn]
          have hz : handoffCount cfg gid
              { autoUploaded := gid :: g.autoUploaded,
                channelUploaded := gid :: g.channelUploaded } rest = 0 :=
            handoffCount_zero_of_mem cfg gid rest _ (List.mem_cons_self gid g.autoUploaded)
          simp [handoffCount, observerHandoffStep, hr, hz]
        · have hr : refresherHandoff cfg gid g = (g, false) := by
            simp [refresherHandoff, hg, hn]
          simpa [handoffCount, observerHandoffStep, hr] using ih g hg
      | monitor =>
        simpa [handoffCount, observerHandoffStep] using ih g hg
  · intro g1 hfire
    by_cases h1 : gid ∈ g1.autoUploaded
    · simp [refresherHandoff_of_mem cfg gid g1 h1] at hfire
    · by_cases hn : (needOnedrive cfg || needTelegram cfg) = true
      · have hr : refresherHandoff cfg gid g1 =
            ({ autoUploaded := gid :: g1.autoUploaded,
               channelUploaded := gid :: g1.channelUploaded }, true) := by
          simp [refresherHandoff, h1, hn]
        rw [hr]
        exact ⟨List.mem_cons_self _ _, List.mem_cons_self _ _⟩
      · have hr : refresherHandoff cfg gid g1 = (g1, false) := by
          simp [refresherHandoff, h1, hn]
        simp [hr] at hfire

/-- Witness: two refreshers and one monitor racing on a fresh task id under
the OneDrive-only configuration hand off exactly at most once. -/
theorem auto_handoff_at_most_once_witness :
    handoffCount cfgOnedriveOnly "g" { autoUploaded := [], channelUploaded := [] }
      [CompleteObserver.refresher, CompleteObserver.refresher, CompleteObserver.monitor] ≤ 1 :=
  (auto_handoff_at_most_once cfgOnedriveOnly "g"
    [CompleteObserver.refresher, CompleteObserver.refresher, CompleteObserver.monitor]
    { autoUploaded := [], channelUploaded := [] } (by simp)).1

/-- C4 (code bug): the automatic hand-off adds the task id to BOTH guard
sets before invoking `_coordinated_auto_upload` (callbacks.py lines
399-401), so when the coordinated-delete condition does not hold the
independent branch's guard re-checks (cloud_coordinator.py lines 52 and 56)
always fail and no backend upload coroutine is ever scheduled: for every
configuration and state the hand-off path yields either the parallel
coordinated action or an empty independent schedule, and in particular the
OneDrive-only auto-upload configuration completes the hand-off with updated
guards and an empty schedule. -/
theorem independent_branch_schedules_nothing :
    (∀ (cfg : CloudCfg) (gid : String) (g : UploadGuards),
      (autoHandoffThenCoordinator cfg gid g).2 = none ∨
      (autoHandoffThenCoordinator cfg gid g).2 = some []) ∧
    needOnedrive cfgOnedriveOnly = true ∧
    needCoordinatedDelete cfgOnedriveOnly = false ∧
    autoHandoffThenCoordinator cfgOnedriveOnly "g"
        { autoUploaded := [], channelUploaded := [] } =
      ({ autoUploaded := ["g"], channelUploaded := ["g"] }, some []) := by
  refine ⟨?_, by decide, by decide, by decide⟩
  intro cfg gid g
  by_cases h1 : gid ∈ g.autoUploaded
  · right
    simp [autoHandoffThenCoordinator, refresherHandoff, h1]
  · by_cases h2 : (needOnedrive cfg || needTelegram cfg) = true
    · have hr : refresherHandoff cfg gid g =
          ({ autoUploaded := gid :: g.autoUploaded,
             channelUploaded := gid :: g.channelUploaded }, true) := by
        simp [refresherHandoff, h1, h2]
      by_cases h3 : needCoordinatedDelete cfg = true
      · left
        simp [autoHandoffThenCoordinator, hr, coordinatedAutoUpload, h3]
      · right
        simp [autoHandoffThenCoordinator, hr, coordinatedAutoUpload, h3,
          independentScheduled, List.mem_cons_self]
    · right
      have hr : refresherHandoff cfg gid g = (g, false) := by
        simp [refresherHandoff, h1, h2]
      simp [autoHandoffThenCoordinator, hr]

/-- C1 counterexample: in a coordinated-parallel invocation whose
success-required set is empty (OneDrive unauthenticated, channel upload
skipped for size), every backend of the required set vacuously reported
success, yet the coordinator returns without deleting the local file (and
without a partial-failure message). -/
theorem coordinated_delete_counterexample :
    (∀ b ∈ requiredBackends envEmptyRequired,
      backendOutcome envEmptyRequired b = UploadOutcome.success) ∧
    coordDeleteInvoked envEmptyRequired = false ∧
    coordFailureMsgSent envEmptyRequired = false ∧
    sizeSkipWarning envEmptyRequired = true := by
  decide

/-- C1 (amended): whenever the coordinated parallel upload runs, the local
file is deleted iff the invocation's success-required set is non-empty and
every backend in it reported success; the partial-failure message is sent
iff some required backend failed or raised; and a channel upload skipped for
exceeding the size limit is excluded from the success-required set (with a
user-visible warning), so it never blocks deletion. -/
theorem coordinated_delete_all_or_nothing (e : CoordEnv) :
    (requiredBackends e ≠ [] →
      (coordDeleteInvoked e = true ↔
        ∀ b ∈ requiredBackends e, backendOutcome e b = UploadOutcome.success)) ∧
    (coordFailureMsgSent e = true ↔
      ∃ b ∈ requiredBackends e, backendOutcome e b ≠ UploadOutcome.success) ∧
    (e.telegramClientPresent = true → e.maxSize < e.fileSize →
      CloudBackend.telegramChannel ∉ requiredBackends e ∧ sizeSkipWarning e = true) := by
  refine ⟨?_, ?_, ?_⟩
  · intro hne
    simp [coordDeleteInvoked, allSuccess, List.all_eq_true, List.isEmpty_iff, hne]
  · constructor
    · intro h
      have h2 : allSuccess e = false := by
        rcases Bool.and_eq_true _ _ |>.mp h with ⟨-, h2⟩
        simpa using h2
      rcases List.all_eq_false.mp h2 with ⟨b, hb, hbo⟩
      exact ⟨b, hb, by simpa using hbo⟩
    · rintro ⟨b, hb, hbo⟩
      apply Bool.and_eq_true _ _ |>.mpr
      constructor
      · simpa [List.isEmpty_iff] using List.ne_nil_of_mem hb
      · have : allSuccess e = false :=
          List.all_eq_false.mpr ⟨b, hb, by simpa using hbo⟩
        simp [this]
  · intro h1 h2
    constructor
    · have hok : telegramSizeOk e = false := by
        simp [telegramSizeOk, h1, h2]
      simp [requiredBackends, hok]
    · simp [sizeSkipWarning, h1, h2]

/-- Witness: the amended coordinated-delete theorem applied to an invocation
with both backends required (channel failing) and to the empty-required-set
invocation's size-skip conjunct. -/
theorem coordinated_delete_all_or_nothing_witness :
    (coordDeleteInvoked envBothRequired = true ↔
      ∀ b ∈ requiredBackends envBothRequired,
        backendOutcome envBothRequired b = UploadOutcome.success) ∧
    (CloudBackend.telegramChannel ∉ requiredBackends envEmptyRequired ∧
      sizeSkipWarning envEmptyRequired = true) :=
  ⟨(coordinated_delete_all_or_nothing envBothRequired).1 (by decide),
   (coordinated_delete_all_or_nothing envEmptyRequired).2.2 rfl (by decide)⟩

/-- C5 (code bug): direct supersession does cancel the mapped refresher
(starting 2 cancels 1), but the cancelled loop's `finally` pops the key
unconditionally, removing its successor's map entry; a third start for the
same key then finds no entry and cancels nothing, leaving two refreshers
(2 and 3) for surface key `1:7` simultaneously running — refresher 2 was
never cancelled nor finished, so it keeps issuing render calls after being
superseded. -/
theorem refresher_supersession_violation :
    1 ∈ (handleDetailCallback "1:7" 2 (handleDetailCallback "1:7" 1 refresherInit)).cancelled ∧
    1 ∈ supersessionTrace.finished ∧
    runningForKey supersessionTrace "1:7" = [3, 2] ∧
    2 ∉ supersessionTrace.cancelled ∧
    2 ∉ supersessionTrace.finished ∧
    supersessionTrace.map = [("1:7", 3)] := by
  decide

/-- C10: the delete-files operation deletes only the resolved join of the
task's directory and display name, only when that path exists and lies under
the resolved download directory; it returns `False` and deletes nothing when
the directory or name is empty or when the resolved path falls outside the
download directory; and it reports `True` exactly when it deleted
something. -/
theorem delete_files_path_guard (downloadDir : List String)
    (fsExists : List String → Bool) (task : DownloadTask) :
    (∀ p, (delete_files downloadDir fsExists task).2 = some p →
      (resolvePath downloadDir).isPrefixOf p = true ∧ fsExists p = true ∧
      p = resolvePath (pyJoinPath task.dir task.name)) ∧
    (task.dir = "" ∨ task.name = "" →
      delete_files downloadDir fsExists task = (false, none)) ∧
    ((resolvePath downloadDir).isPrefixOf (resolvePath (pyJoinPath task.dir task.name)) = false →
      delete_files downloadDir fsExists task = (false, none)) ∧
    ((delete_files downloadDir fsExists task).1 = true ↔
      (delete_files downloadDir fsExists task).2 ≠ none) := by
  by_cases h1 : task.dir = "" ∨ task.name = ""
  · simp [delete_files, h1]
  · by_cases h2 : (resolvePath downloadDir).isPrefixOf
        (resolvePath (pyJoinPath task.dir task.name)) = true
    · by_cases h3 : fsExists (resolvePath (pyJoinPath task.dir task.name)) = true
      · refine ⟨?_, ?_, ?_, ?_⟩
        · intro p hp
          simp [delete_files, h1, h2, h3] at hp
          exact ⟨hp ▸ h2, hp ▸ h3, hp.symm⟩
        · intro h
          exact absurd h h1
        · intro hf
          rw [h2] at hf
          cases hf
        · simp [delete_files, h1, h2, h3]
      · refine ⟨?_, ?_, ?_, ?_⟩
        · intro p hp
          simp [delete_files, h1, h2, h3] at hp
        · intro h
          exact absurd h h1
        · intro hf
          rw [h2] at hf
          cases hf
        · simp [delete_files, h1, h2, h3]
    · refine ⟨?_, ?_, ?_, ?_⟩
      · intro p hp
        simp [delete_files, h1, h2] at hp
      · intro h
        exact absurd h h1
      · intro hf
        simp [delete_files, h1, h2]
      · simp [delete_files, h1, h2]

/-- Witness: the guard theorem applied to a traversal attempt (resolved path
escapes the download directory) and to a task with an empty directory
field. -/
theorem delete_files_path_guard_witness :
    delete_files fixtureDownloadDir fixtureFs taskTraversal = (false, none) ∧
    delete_files fixtureDownloadDir fixtureFs taskNoDir = (false, none) :=
  ⟨(delete_files_path_guard fixtureDownloadDir fixtureFs taskTraversal).2.2.1 (by decide),
   (delete_files_path_guard fixtureDownloadDir fixtureFs taskNoDir).2.1 (Or.inl rfl)⟩
